import Mathlib

/-!
Shallow embedding of the v4n1ty vanity-address generator core
(`src/worker.ts`, `src/utils.ts`, `src/generator.ts`) and proofs of the
spec's testable properties.  Strings are modelled as `List Char`; JS string
primitives (`slice`, `includes`, `startsWith`, `endsWith`, `toLowerCase`)
are modelled on lists; the event-emitter side effects of the generator are
modelled by an explicit event log in the generator state.
-/

namespace V4n1ty

/-- Search modes for vanity address generation (`SearchMode` in types.ts).
`end_` stands for the source's `'end'`, which is a reserved word in Lean. -/
inductive SearchMode
  | anywhere
  | start
  | end_
  | position
  deriving DecidableEq

/-- JS `String.prototype.slice(start, stop)` for nonnegative in-range
indices (the only way the source calls it): the characters from index
`start` up to `stop - 1`. -/
def jsSlice (l : List Char) (start stop : Nat) : List Char :=
  (l.drop start).take (stop - start)

/-- JS `String.prototype.includes(needle)`: scans every suffix of the
haystack for the needle as a prefix (substring occurrence). -/
def jsIncludes (haystack needle : List Char) : Bool :=
  match haystack with
  | [] => needle.isEmpty
  | _ :: rest => needle.isPrefixOf haystack || jsIncludes rest needle

/-- JS `String.prototype.toLowerCase`, modelled on the ASCII range (targets
and addresses are ASCII hex strings). -/
def jsToLower (l : List Char) : List Char :=
  l.map Char.toLower

/-- Checks if an address matches the target criteria
(`matchesTarget` in src/worker.ts). -/
def matchesTarget (address : List Char) (target : List Char) (mode : SearchMode)
    (caseSensitive : Bool) (position : Option Nat) : Bool :=
  let addr := address.drop 2
  let processedAddr := if caseSensitive then addr else jsToLower addr
  let processedTarget := if caseSensitive then target else jsToLower target
  match mode with
  | SearchMode.anywhere => jsIncludes processedAddr processedTarget
  | SearchMode.start => processedTarget.isPrefixOf processedAddr
  | SearchMode.end_ => processedTarget.isSuffixOf processedAddr
  | SearchMode.position =>
      match position with
      | none => false
      | some p => jsSlice processedAddr p (p + processedTarget.length) == processedTarget

/-- Hexadecimal character test: the character class [0-9a-fA-F] of the
regular expression in validateTarget (src/utils.ts). -/
def isHexDigitChar (ch : Char) : Bool :=
  (decide ('0' ≤ ch) && decide (ch ≤ '9')) ||
  (decide ('a' ≤ ch) && decide (ch ≤ 'f')) ||
  (decide ('A' ≤ ch) && decide (ch ≤ 'F'))

/-- Validates a hexadecimal target string (src/utils.ts validateTarget):
the regex ^[0-9a-fA-F]+$ accepts exactly the nonempty all-hex strings. -/
def validateTarget (target : List Char) : Bool :=
  !target.isEmpty && target.all isHexDigitChar

/-- Validates the position parameter for position search mode
(src/utils.ts validatePosition); the arithmetic is over Int as in JS,
since 40 - targetLength may be negative. -/
def validatePosition (position : Nat) (targetLength : Nat) : Bool :=
  decide ((0 : Int) ≤ (position : Int)) &&
  decide ((position : Int) ≤ 40 - (targetLength : Int))

/-- Formats a number (src/utils.ts formatNumber). The source calls
`toLocaleString`; locale-dependent digit grouping is not modelled, the
decimal value itself is rendered. -/
def formatNumber (num : Rat) : String :=
  toString num

/-- JS Math.round for the nonnegative values produced by
estimateDifficulty: round half up. -/
def jsRound (q : Rat) : Int :=
  Rat.floor (q + 1 / 2)

/-- Return value of estimateDifficulty. -/
structure DifficultyEstimate where
  difficulty : Rat
  description : String
  deriving DecidableEq

/-- Estimates the difficulty of finding a vanity address
(src/utils.ts estimateDifficulty). JS numbers are modelled as exact
rationals; the division by zero a 41-character target would cause in
`anywhere` mode (JS Infinity) is outside every validated configuration and
is not modelled. The source's switch has an unreachable default branch
because SearchMode is exhaustive. -/
def estimateDifficulty (target : List Char) (mode : SearchMode) (caseSensitive : Bool) :
    DifficultyEstimate :=
  let targetLength := target.length
  let base : Rat := if caseSensitive then 16 else 16
  match mode with
  | SearchMode.start =>
      { difficulty := base ^ targetLength,
        description := "~1 in " ++ formatNumber (base ^ targetLength) }
  | SearchMode.end_ =>
      { difficulty := base ^ targetLength,
        description := "~1 in " ++ formatNumber (base ^ targetLength) }
  | SearchMode.position =>
      { difficulty := base ^ targetLength,
        description := "~1 in " ++ formatNumber (base ^ targetLength) }
  | SearchMode.anywhere =>
      let difficulty := base ^ targetLength / (40 - (targetLength : Rat) + 1)
      { difficulty := difficulty,
        description := "~1 in " ++ formatNumber ((jsRound difficulty : Int) : Rat) }

/-- Configuration for vanity address generation (GeneratorConfig in
src/types.ts). `numWorkers` is an Int, since the CLI may pass any
integer. -/
structure GeneratorConfig where
  target : List Char
  searchMode : SearchMode
  position : Option Nat
  caseSensitive : Bool
  numWorkers : Int
  deriving DecidableEq

/-- Validates the generator configuration (src/utils.ts validateConfig),
written as the concatenation of the error messages the source's checks
push, in source order. -/
def validateConfig (config : GeneratorConfig) : List String :=
  (if config.target.isEmpty then ["Target string cannot be empty"] else []) ++
  (if !validateTarget config.target then
     ["Target must contain only hexadecimal characters (0-9, a-f, A-F)"] else []) ++
  (if 40 < config.target.length then ["Target cannot be longer than 40 characters"] else []) ++
  (if config.searchMode = SearchMode.position then
     match config.position with
     | none => ["Position must be specified for position search mode"]
     | some p =>
         if !validatePosition p config.target.length then
           ["Position must be between 0 and " ++ toString ((40 : Int) - config.target.length) ++
            " for target length " ++ toString config.target.length]
         else []
   else []) ++
  (if config.numWorkers < 1 then ["Number of workers must be at least 1"] else [])

/-- Performance statistics (PerformanceStats in src/types.ts). -/
structure PerformanceStats where
  totalAttempts : Nat
  totalTime : Rat
  avgAddressesPerSecond : Rat
  currentAddressesPerSecond : Rat
  deriving DecidableEq

/-- Calculates performance statistics (src/utils.ts). `currentTime` stands
for the Date.now() call inside the function; JS numbers are exact
rationals here, and division by an elapsed time of zero yields 0 where JS
yields NaN or Infinity (no claim depends on that corner). -/
def calculatePerformanceStats (totalAttempts : Nat) (startTime : Int)
    (lastUpdateTime : Int) (lastUpdateAttempts : Nat) (currentTime : Int) : PerformanceStats :=
  let totalTime : Rat := ((currentTime - startTime : Int) : Rat) / 1000
  let intervalTime : Rat := ((currentTime - lastUpdateTime : Int) : Rat) / 1000
  { totalAttempts := totalAttempts,
    totalTime := totalTime,
    avgAddressesPerSecond := (totalAttempts : Rat) / totalTime,
    currentAddressesPerSecond := ((totalAttempts : Rat) - (lastUpdateAttempts : Rat)) / intervalTime }

/-- Gets a human-readable description of the search criteria
(src/utils.ts getSearchDescription). A position of `none` renders as
"undefined", exactly as JS template interpolation of undefined does; the
default branch of the source's switch is unreachable for the exhaustive
SearchMode type. -/
def getSearchDescription (target : List Char) (mode : SearchMode)
    (caseSensitive : Bool) (position : Option Nat) : String :=
  let caseNote := if caseSensitive then " (case-sensitive)" else " (case-insensitive)"
  match mode with
  | SearchMode.anywhere => "containing \"" ++ String.mk target ++ "\" anywhere" ++ caseNote
  | SearchMode.start => "starting with \"" ++ String.mk target ++ "\"" ++ caseNote
  | SearchMode.end_ => "ending with \"" ++ String.mk target ++ "\"" ++ caseNote
  | SearchMode.position =>
      "with \"" ++ String.mk target ++ "\" at position " ++
        (match position with
         | some p => toString p
         | none => "undefined") ++ caseNote

/-- Payload of a worker's found message (the data field of WorkerResult in
src/types.ts). -/
structure FoundData where
  address : String
  privateKey : String
  attempts : Nat
  deriving DecidableEq

/-- Tag of a worker result message. -/
inductive WRType
  | found
  | progress
  | error
  deriving DecidableEq

/-- Result from a worker thread (WorkerResult in src/types.ts); the
optional fields mirror the TS interface. -/
structure WorkerResult where
  type : WRType
  data : Option FoundData
  attempts : Option Nat
  error : Option String
  deriving DecidableEq

/-- Generated vanity address result (VanityAddressResult in
src/types.ts). -/
structure VanityAddressResult where
  address : String
  privateKey : String
  attempts : Nat
  searchTime : Rat
  searchDescription : String
  deriving DecidableEq

/-- Events the generator emits (GeneratorEvents in src/generator.ts). -/
inductive GenEvent
  | started
  | stopped
  | progress (stats : PerformanceStats)
  | found (result : VanityAddressResult)
  | error (msg : String)
  deriving DecidableEq

/-- State of a VanityGenerator (src/generator.ts). `events` is the log of
EventEmitter emissions, in emission order; `now` models the ambient
Date.now() clock; `progressIntervalActive` models whether the periodic
reporting interval is registered; `workers` models the worker-handle
array, one unit per live worker. -/
structure VanityGenerator where
  config : GeneratorConfig
  workers : List Unit
  isRunning : Bool
  totalAttempts : Nat
  startTime : Int
  lastUpdateTime : Int
  lastUpdateAttempts : Nat
  progressIntervalActive : Bool
  events : List GenEvent
  now : Int
  deriving DecidableEq

/-- EventEmitter.emit: appends the event to the emission log. -/
def emitEvent (s : VanityGenerator) (e : GenEvent) : VanityGenerator :=
  { s with events := s.events ++ [e] }

/-- The VanityGenerator constructor (src/generator.ts): stores the config
and validates it, throwing (Except.error) when validateConfig reports
errors, so no generator value exists at all on invalid input. -/
def VanityGenerator.construct (config : GeneratorConfig) (now : Int) :
    Except String VanityGenerator :=
  if 0 < (validateConfig config).length then
    Except.error ("Configuration validation failed:\n" ++
      String.intercalate "\n" (validateConfig config))
  else
    Except.ok { config := config, workers := [], isRunning := false, totalAttempts := 0,
                startTime := 0, lastUpdateTime := 0, lastUpdateAttempts := 0,
                progressIntervalActive := false, events := [], now := now }

/-- createWorkers (src/generator.ts): pushes numWorkers worker handles. -/
def VanityGenerator.createWorkers (s : VanityGenerator) : VanityGenerator :=
  { s with workers := s.workers ++ List.replicate s.config.numWorkers.toNat () }

/-- startProgressUpdates (src/generator.ts): registers the periodic
reporting interval. -/
def VanityGenerator.startProgressUpdates (s : VanityGenerator) : VanityGenerator :=
  { s with progressIntervalActive := true }

/-- stopProgressUpdates (src/generator.ts): clears the interval when one
is registered. -/
def VanityGenerator.stopProgressUpdates (s : VanityGenerator) : VanityGenerator :=
  if s.progressIntervalActive then { s with progressIntervalActive := false } else s

/-- terminateAllWorkers (src/generator.ts): terminates every worker and
empties the handle array. -/
def VanityGenerator.terminateAllWorkers (s : VanityGenerator) : VanityGenerator :=
  { s with workers := [] }

/-- VanityGenerator.start (src/generator.ts): throws when already running;
otherwise resets the counters, records Date.now() as the start timestamp,
creates the workers, starts periodic reporting and emits `started`. -/
def VanityGenerator.start (s : VanityGenerator) : Except String VanityGenerator :=
  if s.isRunning then Except.error "Generator is already running"
  else
    Except.ok (emitEvent
      ((({ s with
            isRunning := true, totalAttempts := 0, startTime := s.now,
            lastUpdateTime := s.now,
            lastUpdateAttempts := 0 }).createWorkers).startProgressUpdates)
      GenEvent.started)

/-- VanityGenerator.stop (src/generator.ts): returns unchanged when not
running; otherwise clears the running flag, terminates all workers, stops
reporting and emits `stopped`. -/
def VanityGenerator.stop (s : VanityGenerator) : VanityGenerator :=
  if !s.isRunning then s
  else
    emitEvent ((({ s with isRunning := false }).terminateAllWorkers).stopProgressUpdates)
      GenEvent.stopped

/-- handleFoundResult (src/generator.ts): adds the winner's local attempt
count, builds the FoundResult, calls stop() and then emits `found`. -/
def VanityGenerator.handleFoundResult (s : VanityGenerator) (data : FoundData) :
    VanityGenerator :=
  let s1 := { s with totalAttempts := s.totalAttempts + data.attempts }
  let searchTime : Rat := ((s1.now - s1.startTime : Int) : Rat) / 1000
  let result : VanityAddressResult :=
    { address := data.address, privateKey := data.privateKey,
      attempts := s1.totalAttempts, searchTime := searchTime,
      searchDescription := getSearchDescription s1.config.target s1.config.searchMode
        s1.config.caseSensitive s1.config.position }
  emitEvent s1.stop (GenEvent.found result)

/-- handleWorkerMessage (src/generator.ts): ignores every message when not
running; dispatches on the message type, with JS truthiness on the
optional attempts (0 is falsy) and error (the empty string is falsy)
fields. -/
def VanityGenerator.handleWorkerMessage (s : VanityGenerator) (result : WorkerResult) :
    VanityGenerator :=
  if !s.isRunning then s
  else
    match result.type with
    | WRType.found =>
        match result.data with
        | some d => s.handleFoundResult d
        | none => s
    | WRType.progress =>
        match result.attempts with
        | some a => if a ≠ 0 then { s with totalAttempts := s.totalAttempts + a } else s
        | none => s
    | WRType.error =>
        emitEvent s (GenEvent.error
          (match result.error with
           | some e => if e ≠ "" then e else "Unknown worker error"
           | none => "Unknown worker error"))

/-- getStats (src/generator.ts). -/
def VanityGenerator.getStats (s : VanityGenerator) : PerformanceStats :=
  calculatePerformanceStats s.totalAttempts s.startTime s.lastUpdateTime
    s.lastUpdateAttempts s.now

/-- Serial processing of a batch of delivered worker messages: the
Coordinator handles all worker events one at a time, in delivery order. -/
def processMessages (s : VanityGenerator) : List WorkerResult → VanityGenerator
  | [] => s
  | m :: ms => processMessages (s.handleWorkerMessage m) ms

/-- Is this worker message a Found event that carries a result payload
(the shape a winning worker sends)? -/
def isFoundMsg (r : WorkerResult) : Bool :=
  decide (r.type = WRType.found) && r.data.isSome

/-- Is this log entry a `found` emission? -/
def isFoundEvent (e : GenEvent) : Bool :=
  match e with
  | GenEvent.found _ => true
  | _ => false

/-- Number of `found` events in an emission log. -/
def countFound (evts : List GenEvent) : Nat :=
  evts.countP isFoundEvent

/-- Attempt delta a worker message carries: what the Coordinator adds to
totalAttempts when it accepts the message. -/
def attemptsDelta (r : WorkerResult) : Nat :=
  match r.type with
  | WRType.found =>
      match r.data with
      | some d => d.attempts
      | none => 0
  | WRType.progress =>
      match r.attempts with
      | some a => a
      | none => 0
  | WRType.error => 0

/-- Sum of the attempt deltas of the accepted messages of a delivery
sequence: those the Coordinator processes while it is still running. -/
def acceptedSum (s : VanityGenerator) : List WorkerResult → Nat
  | [] => 0
  | m :: ms =>
      if s.isRunning then attemptsDelta m + acceptedSum (s.handleWorkerMessage m) ms
      else 0

/-- Kind tag of an emitted event, payloads discarded. -/
inductive EventKind
  | started
  | stopped
  | progress
  | found
  | error
  deriving DecidableEq

/-- Kind of an emitted event. -/
def GenEvent.kind : GenEvent → EventKind
  | GenEvent.started => EventKind.started
  | GenEvent.stopped => EventKind.stopped
  | GenEvent.progress _ => EventKind.progress
  | GenEvent.found _ => EventKind.found
  | GenEvent.error _ => EventKind.error

/-- A small valid configuration used for concrete instances. -/
def cfg0 : GeneratorConfig :=
  { target := ['a', 'b'], searchMode := SearchMode.start, position := none,
    caseSensitive := false, numWorkers := 2 }

/-- A running generator state with two live workers. -/
def s0 : VanityGenerator :=
  { config := cfg0, workers := [(), ()], isRunning := true, totalAttempts := 0,
    startTime := 0, lastUpdateTime := 0, lastUpdateAttempts := 0,
    progressIntervalActive := true, events := [], now := 5000 }

/-- An idle (never started) generator state. -/
def sIdle : VanityGenerator :=
  { config := cfg0, workers := [], isRunning := false, totalAttempts := 0,
    startTime := 0, lastUpdateTime := 0, lastUpdateAttempts := 0,
    progressIntervalActive := false, events := [], now := 0 }

/-- A concrete winning worker payload. -/
def d0 : FoundData :=
  { address := "0xab12", privateKey := "0x01", attempts := 7 }

/-- A concrete Found worker message. -/
def m0 : WorkerResult :=
  { type := WRType.found, data := some d0, attempts := none, error := none }

/-- A configuration with a non-hexadecimal target. -/
def badCfg : GeneratorConfig :=
  { target := ['z', 'z'], searchMode := SearchMode.start, position := none,
    caseSensitive := false, numWorkers := 4 }

theorem jsIncludes_iff (haystack needle : List Char) :
    jsIncludes haystack needle = true ↔ needle <:+: haystack := by
  induction haystack with
  | nil =>
      simp [jsIncludes, List.isEmpty_iff]
  | cons c rest ih =>
      simp [jsIncludes, ih, List.infix_cons_iff]

/-- C1: with `caseSensitive = false` the matcher works on the lower-cased
body obtained by dropping the two leading characters of the address:
`start` means the lower-cased target is a prefix of the lower-cased body,
`end` means it is a suffix, and `anywhere` means it occurs as a contiguous
substring. -/
theorem matchesTarget_case_insensitive_semantics
    (address target : List Char) (position : Option Nat) :
    (matchesTarget address target SearchMode.start false position = true ↔
       jsToLower target <+: jsToLower (address.drop 2)) ∧
    (matchesTarget address target SearchMode.end_ false position = true ↔
       jsToLower target <:+ jsToLower (address.drop 2)) ∧
    (matchesTarget address target SearchMode.anywhere false position = true ↔
       jsToLower target <:+: jsToLower (address.drop 2)) := by
  refine ⟨?_, ?_, ?_⟩
  · simp [matchesTarget]
  · simp [matchesTarget]
  · simp [matchesTarget, jsIncludes_iff]

theorem jsSlice_beq_iff (body t : List Char) (p : Nat) :
    ((jsSlice body p (p + t.length) == t) = true) ↔ t <+: body.drop p := by
  unfold jsSlice
  rw [Nat.add_sub_cancel_left, beq_iff_eq, List.prefix_iff_eq_take]
  exact eq_comm

theorem jsSlice_beq_oob (body t : List Char) (p : Nat)
    (hout : body.length < p + t.length) (hlen : 0 < t.length) :
    (jsSlice body p (p + t.length) == t) = false := by
  unfold jsSlice
  rw [Nat.add_sub_cancel_left, beq_eq_false_iff_ne]
  intro h
  have hl := congrArg List.length h
  simp [List.length_take, List.length_drop] at hl
  omega

/-- C4: in `position` mode the matcher compares the slice of the processed
body starting at `position` of the target's length with the processed
target: when `position + len(target)` is within the body this holds iff the
processed target occurs at that offset (is a prefix of the body dropped at
`position`); when it runs past the end of the body (and the target is
nonempty, as every valid configuration guarantees) the matcher returns
`false`; and a `position` of `none` (undefined) returns `false` rather
than failing. -/
theorem matchesTarget_position_semantics :
    (∀ (address target : List Char) (cs : Bool) (p : Nat),
       p + target.length ≤ (address.drop 2).length →
       (matchesTarget address target SearchMode.position cs (some p) = true ↔
          (if cs then target else jsToLower target) <+:
            ((if cs then address.drop 2 else jsToLower (address.drop 2)).drop p))) ∧
    (∀ (address target : List Char) (cs : Bool) (p : Nat),
       (address.drop 2).length < p + target.length → 0 < target.length →
       matchesTarget address target SearchMode.position cs (some p) = false) ∧
    (∀ (address target : List Char) (cs : Bool),
       matchesTarget address target SearchMode.position cs none = false) := by
  refine ⟨?_, ?_, ?_⟩
  · intro address target cs p _h
    cases cs
    · exact jsSlice_beq_iff (jsToLower (address.drop 2)) (jsToLower target) p
    · exact jsSlice_beq_iff (address.drop 2) target p
  · intro address target cs p hout hlen
    cases cs
    · exact jsSlice_beq_oob (jsToLower (address.drop 2)) (jsToLower target) p
        (by simpa [jsToLower] using hout) (by simpa [jsToLower] using hlen)
    · exact jsSlice_beq_oob (address.drop 2) target p hout hlen
  · intro address target cs
    cases cs <;> rfl

/-- Closed instance of matchesTarget_position_semantics at concrete
inputs, each hypothesis discharged by evaluation. -/
theorem matchesTarget_position_semantics_witness :
    (matchesTarget ['0', 'x', 'A', 'b', 'c', 'd'] ['B', 'C'] SearchMode.position false
        (some 1) = true ↔
      (if false then ['B', 'C'] else jsToLower ['B', 'C']) <+:
        ((if false then (['0', 'x', 'A', 'b', 'c', 'd'] : List Char).drop 2
          else jsToLower ((['0', 'x', 'A', 'b', 'c', 'd'] : List Char).drop 2)).drop 1)) ∧
    matchesTarget ['0', 'x', 'A', 'b', 'c', 'd'] ['B', 'C'] SearchMode.position false
        (some 3) = false ∧
    matchesTarget ['0', 'x', 'A', 'b', 'c', 'd'] ['B', 'C'] SearchMode.position false
        none = false :=
  ⟨matchesTarget_position_semantics.1 ['0', 'x', 'A', 'b', 'c', 'd'] ['B', 'C'] false 1
      (by decide),
   matchesTarget_position_semantics.2.1 ['0', 'x', 'A', 'b', 'c', 'd'] ['B', 'C'] false 3
      (by decide) (by decide),
   matchesTarget_position_semantics.2.2 ['0', 'x', 'A', 'b', 'c', 'd'] ['B', 'C'] false⟩

/-- C9: in `start` mode with case-insensitive matching the estimated
number of attempts for a target of length L is 16 ^ L; for the target
"dead" it is 65536. -/
theorem estimateDifficulty_start_pow :
    (∀ target : List Char,
       (estimateDifficulty target SearchMode.start false).difficulty =
         (16 : Rat) ^ target.length) ∧
    (estimateDifficulty ['d', 'e', 'a', 'd'] SearchMode.start false).difficulty = 65536 := by
  constructor
  · intro target
    rfl
  · norm_num [estimateDifficulty]

/-- C10: estimateDifficulty ignores its caseSensitive argument: the base
is 16 in both branches of the conditional, so difficulty and description
are identical for caseSensitive true and false, for every target and every
mode. -/
theorem estimateDifficulty_caseSensitive_irrelevant
    (target : List Char) (mode : SearchMode) :
    estimateDifficulty target mode true = estimateDifficulty target mode false := by
  cases mode <;> rfl

theorem handleWorkerMessage_not_running (s : VanityGenerator) (m : WorkerResult)
    (h : s.isRunning = false) : s.handleWorkerMessage m = s := by
  unfold VanityGenerator.handleWorkerMessage
  simp [h]

theorem processMessages_not_running (s : VanityGenerator) (msgs : List WorkerResult)
    (h : s.isRunning = false) : processMessages s msgs = s := by
  induction msgs generalizing s with
  | nil => rfl
  | cons m ms ih =>
      show processMessages (s.handleWorkerMessage m) ms = s
      rw [handleWorkerMessage_not_running s m h]
      exact ih s h

theorem stop_not_running (s : VanityGenerator) (h : s.isRunning = false) : s.stop = s := by
  unfold VanityGenerator.stop
  simp [h]

theorem stop_isRunning_false (s : VanityGenerator) : s.stop.isRunning = false := by
  unfold VanityGenerator.stop VanityGenerator.terminateAllWorkers
    VanityGenerator.stopProgressUpdates emitEvent
  by_cases h : s.isRunning
  · simp only [h, Bool.not_true, Bool.false_eq_true, if_false]
    split <;> rfl
  · simp only [Bool.not_eq_true] at h
    simp [h]

theorem stop_running_fields (s : VanityGenerator) (h : s.isRunning = true) :
    s.stop.isRunning = false ∧ s.stop.workers = [] ∧
    s.stop.events = s.events ++ [GenEvent.stopped] ∧
    s.stop.totalAttempts = s.totalAttempts := by
  unfold VanityGenerator.stop VanityGenerator.terminateAllWorkers
    VanityGenerator.stopProgressUpdates emitEvent
  simp only [h, Bool.not_true, Bool.false_eq_true, if_false]
  split <;> simp

theorem handleFoundResult_fields (s : VanityGenerator) (d : FoundData)
    (h : s.isRunning = true) :
    (s.handleFoundResult d).isRunning = false ∧
    (s.handleFoundResult d).workers = [] ∧
    (s.handleFoundResult d).totalAttempts = s.totalAttempts + d.attempts ∧
    (s.handleFoundResult d).events = s.events ++
      [GenEvent.stopped,
       GenEvent.found
         { address := d.address, privateKey := d.privateKey,
           attempts := s.totalAttempts + d.attempts,
           searchTime := ((s.now - s.startTime : Int) : Rat) / 1000,
           searchDescription := getSearchDescription s.config.target s.config.searchMode
             s.config.caseSensitive s.config.position }] := by
  have hstop := stop_running_fields { s with totalAttempts := s.totalAttempts + d.attempts }
    (by simpa using h)
  unfold VanityGenerator.handleFoundResult emitEvent
  dsimp only
  refine ⟨hstop.1, hstop.2.1, by rw [hstop.2.2.2], ?_⟩
  rw [hstop.2.2.1]
  simp

theorem handleWorkerMessage_step (s : VanityGenerator) (m : WorkerResult)
    (h : s.isRunning = true) :
    (isFoundMsg m = true →
       (s.handleWorkerMessage m).isRunning = false ∧
       countFound (s.handleWorkerMessage m).events = countFound s.events + 1) ∧
    (isFoundMsg m = false →
       (s.handleWorkerMessage m).isRunning = true ∧
       countFound (s.handleWorkerMessage m).events = countFound s.events) := by
  obtain ⟨t, dta, att, er⟩ := m
  cases t
  case found =>
    cases dta with
    | some d =>
        refine ⟨fun _ => ?_, fun hfalse => by simp [isFoundMsg] at hfalse⟩
        have hmsg : VanityGenerator.handleWorkerMessage s ⟨WRType.found, some d, att, er⟩ =
            s.handleFoundResult d := by
          unfold VanityGenerator.handleWorkerMessage
          simp [h]
        have hf := handleFoundResult_fields s d h
        rw [hmsg, hf.2.2.2]
        refine ⟨hmsg ▸ hf.1, ?_⟩
        simp [countFound, List.countP_append, isFoundEvent]
    | none =>
        refine ⟨fun htrue => by simp [isFoundMsg] at htrue, fun _ => ?_⟩
        have hmsg : VanityGenerator.handleWorkerMessage s ⟨WRType.found, none, att, er⟩ = s := by
          unfold VanityGenerator.handleWorkerMessage
          simp [h]
        rw [hmsg]
        exact ⟨h, rfl⟩
  case progress =>
    refine ⟨fun htrue => by simp [isFoundMsg] at htrue, fun _ => ?_⟩
    unfold VanityGenerator.handleWorkerMessage
    simp only [h, Bool.not_true, Bool.false_eq_true, if_false]
    cases att with
    | some a =>
        by_cases ha : a = 0
        · simp [ha, h]
        · simp [ha, h]
    | none => exact ⟨h, rfl⟩
  case error =>
    refine ⟨fun htrue => by simp [isFoundMsg] at htrue, fun _ => ?_⟩
    unfold VanityGenerator.handleWorkerMessage emitEvent
    simp [h, countFound, List.countP_append, isFoundEvent]

/-- C2: while running, a batch of delivered worker messages containing at
least one Found message produces exactly one `found` emission however the
deliveries interleave (the first accepted Found clears the running flag
before any later message is processed), and every message delivered to a
non-running Coordinator is ignored without mutating any state. -/
theorem coordinator_at_most_one_found :
    (∀ (s : VanityGenerator) (msgs : List WorkerResult), s.isRunning = true →
       countFound (processMessages s msgs).events =
         countFound s.events + (if msgs.any isFoundMsg then 1 else 0)) ∧
    (∀ (s : VanityGenerator) (m : WorkerResult), s.isRunning = false →
       s.handleWorkerMessage m = s) := by
  constructor
  · intro s msgs h
    induction msgs generalizing s with
    | nil => simp [processMessages]
    | cons m ms ih =>
        show countFound (processMessages (s.handleWorkerMessage m) ms).events = _
        by_cases hm : isFoundMsg m = true
        · have hstep := (handleWorkerMessage_step s m h).1 hm
          rw [processMessages_not_running _ ms hstep.1, hstep.2]
          simp [hm]
        · have hm' : isFoundMsg m = false := by simpa using hm
          have hstep := (handleWorkerMessage_step s m h).2 hm'
          rw [ih _ hstep.1, hstep.2]
          simp [hm']
  · exact handleWorkerMessage_not_running

/-- Closed instance of coordinator_at_most_one_found: two racing Found
messages delivered to a running Coordinator yield exactly one `found`
emission. -/
theorem coordinator_at_most_one_found_witness :
    countFound (processMessages s0 [m0, m0]).events = countFound s0.events + 1 := by
  have h := coordinator_at_most_one_found.1 s0 [m0, m0] rfl
  simpa [m0, isFoundMsg, d0] using h

theorem acceptedSum_not_running (s : VanityGenerator) (msgs : List WorkerResult)
    (h : s.isRunning = false) : acceptedSum s msgs = 0 := by
  cases msgs with
  | nil => rfl
  | cons m ms => simp [acceptedSum, h]

theorem handleWorkerMessage_totalAttempts (s : VanityGenerator) (m : WorkerResult) :
    (s.handleWorkerMessage m).totalAttempts =
      s.totalAttempts + (if s.isRunning then attemptsDelta m else 0) := by
  by_cases h : s.isRunning = true
  · obtain ⟨t, dta, att, er⟩ := m
    cases t with
    | found =>
      cases dta with
      | some d =>
          have hmsg : VanityGenerator.handleWorkerMessage s ⟨WRType.found, some d, att, er⟩ =
              s.handleFoundResult d := by
            unfold VanityGenerator.handleWorkerMessage
            simp [h]
          rw [hmsg, (handleFoundResult_fields s d h).2.2.1]
          simp [h, attemptsDelta]
      | none =>
          unfold VanityGenerator.handleWorkerMessage
          simp [h, attemptsDelta]
    | progress =>
      unfold VanityGenerator.handleWorkerMessage
      cases att with
      | some a =>
          by_cases ha : a = 0
          · simp [h, ha, attemptsDelta]
          · simp [h, ha, attemptsDelta]
      | none => simp [h, attemptsDelta]
    | error =>
      unfold VanityGenerator.handleWorkerMessage emitEvent
      simp [h, attemptsDelta]
  · have h' : s.isRunning = false := by simpa using h
    rw [handleWorkerMessage_not_running s m h']
    simp [h']

/-- C3: after the Coordinator serially processes any delivery sequence of
worker messages, its totalAttempts counter (as getStats reports it) equals
its previous value plus the exact sum of the attempt deltas of the
accepted messages — those processed while the search was running — with no
double counting and no loss; and each single message handling leaves
totalAttempts non-decreasing (only Progress and Found events increase
it). -/
theorem coordinator_attempt_accounting :
    (∀ (s : VanityGenerator) (msgs : List WorkerResult),
       (processMessages s msgs).getStats.totalAttempts =
         s.getStats.totalAttempts + acceptedSum s msgs) ∧
    (∀ (s : VanityGenerator) (m : WorkerResult),
       s.totalAttempts ≤ (s.handleWorkerMessage m).totalAttempts) := by
  have hgs : ∀ s : VanityGenerator, s.getStats.totalAttempts = s.totalAttempts :=
    fun s => rfl
  constructor
  · intro s msgs
    induction msgs generalizing s with
    | nil => simp [processMessages, acceptedSum]
    | cons m ms ih =>
        show (processMessages (s.handleWorkerMessage m) ms).getStats.totalAttempts = _
        rw [ih, hgs, hgs, handleWorkerMessage_totalAttempts]
        by_cases h : s.isRunning = true
        · simp only [acceptedSum, h, if_true]
          omega
        · have h' : s.isRunning = false := by simpa using h
          rw [handleWorkerMessage_not_running s m h']
          simp [acceptedSum, h', acceptedSum_not_running s ms h']
  · intro s m
    rw [handleWorkerMessage_totalAttempts]
    exact Nat.le_add_right _ _

/-- C6 counterexample: at a concrete running state accepting a concrete
winning Found message, the emission log shows `stopped` strictly before
`found` — the internal stop() takes effect (and emits `stopped`) before
the `found` event is emitted, contradicting the claimed observable order
of `found` first, stop second. -/
theorem found_emitted_before_stop_counterexample :
    (s0.handleWorkerMessage m0).events.map GenEvent.kind =
      [EventKind.stopped, EventKind.found] ∧
    ¬ ((s0.handleWorkerMessage m0).events.map GenEvent.kind =
         [EventKind.found, EventKind.stopped]) ∧
    s0.events = [] := by
  refine ⟨rfl, by decide, rfl⟩

/-- C6 amended: when the running Coordinator accepts a winning Found
event it emits `found` exactly once for that search, and the emission is
synchronously preceded — not followed — by the internal stop(): the
observable order is `stopped` then `found`, and all workers are already
torn down when `found` is emitted. -/
theorem found_emission_after_internal_stop (s : VanityGenerator) (d : FoundData)
    (h : s.isRunning = true) :
    ((s.handleWorkerMessage ⟨WRType.found, some d, none, none⟩).events.map GenEvent.kind =
       s.events.map GenEvent.kind ++ [EventKind.stopped, EventKind.found]) ∧
    (s.handleWorkerMessage ⟨WRType.found, some d, none, none⟩).isRunning = false ∧
    (s.handleWorkerMessage ⟨WRType.found, some d, none, none⟩).workers = [] := by
  have hmsg : s.handleWorkerMessage ⟨WRType.found, some d, none, none⟩ =
      s.handleFoundResult d := by
    unfold VanityGenerator.handleWorkerMessage
    simp [h]
  have hf := handleFoundResult_fields s d h
  rw [hmsg, hf.2.2.2]
  exact ⟨by simp [GenEvent.kind], hf.1, hf.2.1⟩

/-- Closed instance of found_emission_after_internal_stop at the concrete
running state s0 and winning payload d0. -/
theorem found_emission_after_internal_stop_witness :
    ((s0.handleWorkerMessage ⟨WRType.found, some d0, none, none⟩).events.map GenEvent.kind =
       s0.events.map GenEvent.kind ++ [EventKind.stopped, EventKind.found]) ∧
    (s0.handleWorkerMessage ⟨WRType.found, some d0, none, none⟩).isRunning = false ∧
    (s0.handleWorkerMessage ⟨WRType.found, some d0, none, none⟩).workers = [] :=
  found_emission_after_internal_stop s0 d0 rfl

/-- C7: stop() is idempotent: on a non-running generator it is a no-op
returning the state unchanged (no error, no events), and stopping twice
equals stopping once — the `stopped` emission and the worker-teardown and
reporting-cancellation effects happen only on the first call. -/
theorem stop_idempotent (s : VanityGenerator) :
    (s.isRunning = false → s.stop = s) ∧ s.stop.stop = s.stop :=
  ⟨fun h => stop_not_running s h, stop_not_running _ (stop_isRunning_false s)⟩

/-- Closed instance of stop_idempotent: stop() on the idle state is the
identity. -/
theorem stop_idempotent_witness : sIdle.stop = sIdle :=
  (stop_idempotent sIdle).1 rfl

theorem construct_error_of_invalid (config : GeneratorConfig) (now : Int)
    (h : validateConfig config ≠ []) :
    ∃ msg, VanityGenerator.construct config now = Except.error msg := by
  unfold VanityGenerator.construct
  rw [if_pos (List.length_pos.mpr h)]
  exact ⟨_, rfl⟩

/-- C5: construction-time validation rejects — via a thrown
ConfigurationError, synchronously, before any worker exists — an empty
target, a non-hexadecimal target, a target longer than 40 characters,
position mode without a position, position mode with a position outside
[0, 40 - len(target)], and a worker count below 1; and every successfully
constructed generator has an empty worker array, so a failed validation
never leaves a half-started state. -/
theorem construct_rejects_invalid_configs :
    (∀ (config : GeneratorConfig) (now : Int),
       (config.target = [] ∨
        (∃ ch ∈ config.target, isHexDigitChar ch = false) ∨
        40 < config.target.length ∨
        (config.searchMode = SearchMode.position ∧ config.position = none) ∨
        (config.searchMode = SearchMode.position ∧
           ∃ p, config.position = some p ∧ ¬((p : Int) ≤ 40 - config.target.length)) ∨
        config.numWorkers < 1) →
       ∃ msg, VanityGenerator.construct config now = Except.error msg) ∧
    (∀ (config : GeneratorConfig) (now : Int) (g : VanityGenerator),
       VanityGenerator.construct config now = Except.ok g → g.workers = []) := by
  constructor
  · intro config now hbad
    apply construct_error_of_invalid
    intro hEq
    rw [validateConfig] at hEq
    simp only [List.append_eq_nil] at hEq
    obtain ⟨⟨⟨⟨h1, h2⟩, h3⟩, h4⟩, h5⟩ := hEq
    rcases hbad with h | ⟨ch, hmem, hch⟩ | h | ⟨hmode, hpos⟩ | ⟨hmode, p, hp, hout⟩ | h
    · simp [h] at h1
    · cases hvt : validateTarget config.target with
      | false => simp [hvt] at h2
      | true =>
          rw [validateTarget, Bool.and_eq_true] at hvt
          have hall := List.all_eq_true.mp hvt.2 ch hmem
          rw [hch] at hall
          simp at hall
    · simp [h] at h3
    · simp [hmode, hpos] at h4
    · simp [hmode, hp, validatePosition, hout] at h4
    · simp [h] at h5
  · intro config now g hok
    unfold VanityGenerator.construct at hok
    split at hok
    · simp at hok
    · injection hok with hg
      subst hg
      rfl

/-- Closed instance of construct_rejects_invalid_configs: the non-hex
target "zz" is rejected at construction. -/
theorem construct_rejects_invalid_configs_witness :
    ∃ msg, VanityGenerator.construct badCfg 0 = Except.error msg :=
  construct_rejects_invalid_configs.1 badCfg 0
    (Or.inr (Or.inl ⟨'z', by decide, by decide⟩))

/-- C8: start() on a running generator throws AlreadyRunningError
("Generator is already running"), producing no new state, so the running
search is untouched; start() on a non-running generator succeeds, resets
the attempt counters, records the current time as the start timestamp,
appends numWorkers fresh workers, activates periodic reporting and emits
a `started` event. -/
theorem start_contract (s : VanityGenerator) :
    (s.isRunning = true → s.start = Except.error "Generator is already running") ∧
    (s.isRunning = false →
       ∃ g, s.start = Except.ok g ∧
         g.isRunning = true ∧ g.totalAttempts = 0 ∧ g.startTime = s.now ∧
         g.lastUpdateTime = s.now ∧ g.lastUpdateAttempts = 0 ∧
         g.workers = s.workers ++ List.replicate s.config.numWorkers.toNat () ∧
         g.progressIntervalActive = true ∧
         g.events = s.events ++ [GenEvent.started]) := by
  constructor
  · intro h
    unfold VanityGenerator.start
    simp [h]
  · intro h
    have hstart : s.start = Except.ok (emitEvent
        ((({ s with
              isRunning := true, totalAttempts := 0, startTime := s.now,
              lastUpdateTime := s.now,
              lastUpdateAttempts := 0 }).createWorkers).startProgressUpdates)
        GenEvent.started) := by
      unfold VanityGenerator.start
      simp [h]
    exact ⟨_, hstart, rfl, rfl, rfl, rfl, rfl, rfl, rfl, rfl⟩

/-- Closed instance of start_contract: starting the running state s0
throws AlreadyRunningError and starting the idle state succeeds with the
documented resets. -/
theorem start_contract_witness :
    s0.start = Except.error "Generator is already running" ∧
    (∃ g, sIdle.start = Except.ok g ∧
       g.isRunning = true ∧ g.totalAttempts = 0 ∧ g.startTime = sIdle.now ∧
       g.lastUpdateTime = sIdle.now ∧ g.lastUpdateAttempts = 0 ∧
       g.workers = sIdle.workers ++ List.replicate sIdle.config.numWorkers.toNat () ∧
       g.progressIntervalActive = true ∧
       g.events = sIdle.events ++ [GenEvent.started]) :=
  ⟨(start_contract s0).1 rfl, (start_contract sIdle).2 rfl⟩

end V4n1ty
